import Mathlib

/-!
Verification of the Simon game backend (gameService.ts, gameHandler.ts and the
shared type/constant modules) against its natural-language specification.

Shallow embedding conventions:
* TypeScript Record-with-string-keys objects are modelled as association lists
  (List (String × α)) in insertion order; Object.values / Object.keys are the
  second / first projections, property read is the first matching key, and
  property assignment replaces the value of an existing key in place or appends
  a fresh key at the end, exactly as JavaScript objects behave.
* Timestamps (Date.now(), performance.now()) are modelled as naturals; the code
  only compares them and tests them for JavaScript falsiness (zero).
* The module-level mutable LCG seed (sequenceSeed) is passed explicitly: every
  function that reads or advances it takes the seed and returns the new seed.
* uuidv4() and Date.now() results are taken as parameters.
-/

set_option autoImplicit false

universe u

namespace Simon

/-- Record helpers: lookup of a string-keyed property, first matching key wins
(keys are unique in a JavaScript object, so this is exact). -/
def recFind {α : Type u} (l : List (String × α)) (k : String) : Option α :=
  match l with
  | [] => none
  | (k', v) :: rest => if k' = k then some v else recFind rest k

/-- Whether the object has the property k. -/
def recHas {α : Type u} (l : List (String × α)) (k : String) : Bool :=
  match l with
  | [] => false
  | (k', _) :: rest => if k' = k then true else recHas rest k

/-- JavaScript property assignment obj[k] = v: overwrite in place when the key
exists, append the new key at the end otherwise. -/
def recSet {α : Type u} (l : List (String × α)) (k : String) (v : α) : List (String × α) :=
  if recHas l k then l.map (fun p => if p.1 = k then (k, v) else p) else l ++ [(k, v)]

-- =============================================================================
-- Shared game types (game.types.ts)
-- =============================================================================

/-- Available colors in both games. -/
inductive Color where
  | red
  | blue
  | yellow
  | green
deriving DecidableEq, Repr

/-- All available colors, in declaration order. -/
def COLORS : List Color := [Color.red, Color.blue, Color.yellow, Color.green]

/-- Simon Says game phases. -/
inductive SimonPhase where
  | waiting
  | countdown
  | showing_sequence
  | player_input
  | round_result
  | elimination
  | finished
deriving DecidableEq, Repr

/-- Player status in Simon Says. -/
inductive SimonPlayerStatus where
  | playing
  | eliminated
  | spectating
deriving DecidableEq, Repr

/-- Simon Says player state. -/
structure SimonPlayerState where
  playerId : String
  status : SimonPlayerStatus
  currentInputIndex : Nat
  eliminatedAtRound : Option Nat
deriving DecidableEq, Repr

/-- Player submission (Step 4); finishTime is the optional client
performance.now() value, timestamp the server receive time. -/
structure PlayerSubmission where
  playerId : String
  sequence : List Color
  timestamp : Nat
  finishTime : Option Nat
  isCorrect : Bool
deriving DecidableEq, Repr

/-- Simon Says game state. -/
structure SimonGameState where
  gameType : String
  phase : SimonPhase
  sequence : List Color
  round : Nat
  playerStates : List (String × SimonPlayerState)
  currentShowingIndex : Nat
  timeoutMs : Nat
  timeoutAt : Option Nat
  timerStartedAt : Option Nat
  scores : List (String × Nat)
  submissions : List (String × PlayerSubmission)
  roundWinner : Option String
  winnerId : Option String
deriving DecidableEq, Repr

/-- Elimination reason reported per eliminated player. -/
inductive ElimReason where
  | wrong_sequence
  | timeout
deriving DecidableEq, Repr

/-- Simon Says constants (SIMON_CONSTANTS in game.types.ts). -/
def INITIAL_SEQUENCE_LENGTH : Nat := 1

def MAX_CYCLES : Nat := 5

def TIMEOUT_MS : Nat := 20000

-- =============================================================================
-- shouldGameEnd / haveAllPlayersSubmitted (gameService.ts, Simon section)
-- =============================================================================

/-- The filter on Object.values(playerStates) for status === playing that the
source repeats in several functions. -/
def activePlayerStates (gs : SimonGameState) : List SimonPlayerState :=
  (gs.playerStates.map Prod.snd).filter (fun st => st.status = SimonPlayerStatus.playing)

/-- Check if game should end (Epic 6: after MAX_CYCLES cycles, or for a
solo game when the lone player is eliminated, or in multiplayer when at most
one active player remains). -/
def shouldGameEnd (gs : SimonGameState) : Bool :=
  if MAX_CYCLES ≤ gs.round then true
  else
    let totalPlayers := gs.playerStates.length
    let activePlayers := activePlayerStates gs
    if totalPlayers = 1 then activePlayers.length = 0
    else activePlayers.length ≤ 1

/-- Check if all active players have submitted: the source compares the COUNT
of submission keys with the count of active players. -/
def haveAllPlayersSubmitted (gs : SimonGameState) : Bool :=
  let activePlayers := activePlayerStates gs
  let submissions := gs.submissions.map Prod.fst
  0 < activePlayers.length ∧ activePlayers.length ≤ submissions.length

-- =============================================================================
-- Seeded sequence generation (gameService.ts, Epic 4)
-- =============================================================================

/-- One step of the LCG behind seededRandom: the update of the module-level
sequenceSeed. The seed is always reduced mod 233280, so it stays below it. -/
def lcgNext (seed : Nat) : Nat := (seed * 9301 + 49297) % 233280

/-- Math.floor(seededRandom() * COLORS.length) after the seed update: since the
updated seed is below 233280, the float computation agrees with exact natural
division, and the index is at most 3. -/
def randColor (seed : Nat) : Color := COLORS.getD (seed * 4 / 233280) Color.red

/-- Generate a seeded random color sequence of the given length, threading the
seed; returns the sequence and the seed after the loop. -/
def generateSequence (seed : Nat) : Nat → List Color × Nat
  | 0 => ([], seed)
  | n + 1 =>
    let s := lcgNext seed
    let rest := generateSequence s n
    (randColor s :: rest.1, rest.2)

/-- Add one more color to an existing sequence using the seeded generator. -/
def extendSequence (seed : Nat) (currentSequence : List Color) : List Color × Nat :=
  let s := lcgNext seed
  (currentSequence ++ [randColor s], s)

-- =============================================================================
-- Initialization (initializeSimonGame)
-- =============================================================================

/-- Platform player record (platform.types.ts); lastActivity is a timestamp. -/
structure Player where
  id : String
  displayName : String
  avatarId : String
  isHost : Bool
  socketId : Option String
  connected : Bool
  lastActivity : Nat
deriving DecidableEq, Repr

/-- Initialize a new Simon game state; now is the Date.now() value used to
reseed the generator. Returns the state and the seed after generating the
initial sequence. -/
def initializeSimonGame (players : List Player) (now : Nat) : SimonGameState × Nat :=
  let gen := generateSequence now INITIAL_SEQUENCE_LENGTH
  ({ gameType := "simon"
     phase := SimonPhase.showing_sequence
     sequence := gen.1
     round := 1
     playerStates := players.map (fun p =>
       (p.id, { playerId := p.id, status := SimonPlayerStatus.playing,
                currentInputIndex := 0, eliminatedAtRound := none }))
     currentShowingIndex := 0
     timeoutMs := TIMEOUT_MS
     timeoutAt := none
     timerStartedAt := none
     scores := players.map (fun p => (p.id, 0))
     submissions := []
     roundWinner := none
     winnerId := none }, gen.2)

-- =============================================================================
-- Round processing (processRoundSubmissions, Step 4)
-- =============================================================================

/-- The sort key used for the fastest-correct comparison: a.finishTime ||
a.timestamp, i.e. the finishTime when it is present and nonzero (JavaScript
truthiness), otherwise the server timestamp. -/
def subKey (s : PlayerSubmission) : Nat :=
  match s.finishTime with
  | some t => if t = 0 then s.timestamp else t
  | none => s.timestamp

/-- The head of the stable sort of the list by subKey, i.e. the first element
attaining the minimal key; models sorting a copy with (a, b) => keyA - keyB
(JavaScript Array.prototype.sort is stable) and taking element 0. -/
def fastestOf : List PlayerSubmission → Option PlayerSubmission
  | [] => none
  | s :: rest =>
    match fastestOf rest with
    | none => some s
    | some b => if subKey s ≤ subKey b then some s else some b

/-- The forEach loop over submissions that eliminates every still-playing
author of an incorrect submission, recording eliminations in order; the status
check is made against the states as updated so far. -/
def eliminateWrong (round : Nat) :
    List PlayerSubmission → List (String × SimonPlayerState) →
    List (String × SimonPlayerState) × List (String × ElimReason)
  | [], states => (states, [])
  | sub :: rest, states =>
    if sub.isCorrect then eliminateWrong round rest states
    else
      match recFind states sub.playerId with
      | some st =>
        if st.status = SimonPlayerStatus.playing then
          let states' := recSet states sub.playerId
            { st with status := SimonPlayerStatus.eliminated, eliminatedAtRound := some round }
          let tail := eliminateWrong round rest states'
          (tail.1, (sub.playerId, ElimReason.wrong_sequence) :: tail.2)
        else eliminateWrong round rest states
      | none => eliminateWrong round rest states

/-- Process all submissions for a round: eliminate wrong submissions, award +1
to the fastest correct submission, clear the submissions map. Returns the
updated state, the round winner (player id and new score) or none, and the
eliminations in submission order. -/
def processRoundSubmissions (gs : SimonGameState) :
    SimonGameState × Option (String × Nat) × List (String × ElimReason) :=
  let submissions := gs.submissions.map Prod.snd
  let correctSubmissions := submissions.filter (fun s => s.isCorrect)
  let elim := eliminateWrong gs.round submissions gs.playerStates
  let roundWinner : Option (String × Nat) :=
    (fastestOf correctSubmissions).map (fun w =>
      (w.playerId, (recFind gs.scores w.playerId).getD 0 + 1))
  let updatedScores :=
    match roundWinner with
    | none => gs.scores
    | some pn => recSet gs.scores pn.1 pn.2
  ({ gs with
      playerStates := elim.1
      scores := updatedScores
      roundWinner :=
        match roundWinner with
        | none => none
        | some pn => if pn.1 = "" then none else some pn.1
      submissions := [] }, roundWinner, elim.2)

-- =============================================================================
-- Game progression (advanceToNextRound)
-- =============================================================================

/-- Advance to the next round: extend the sequence by one color, reset every
player's input index, bump the round, clear submissions and round winner. The
source does not touch timeoutAt or timerStartedAt here. -/
def advanceToNextRound (seed : Nat) (gs : SimonGameState) : SimonGameState × Nat :=
  let ext := extendSequence seed gs.sequence
  ({ gs with
      phase := SimonPhase.showing_sequence
      sequence := ext.1
      round := gs.round + 1
      playerStates := gs.playerStates.map (fun p => (p.1, { p.2 with currentInputIndex := 0 }))
      currentShowingIndex := 0
      timeoutMs := TIMEOUT_MS
      submissions := []
      roundWinner := none }, ext.2)

-- =============================================================================
-- Platform layer (platform.types.ts, gameService.ts room or player management)
-- =============================================================================

/-- Room lifecycle states. -/
inductive RoomStatus where
  | waiting
  | countdown
  | active
  | finished
deriving DecidableEq, Repr

/-- Game room container; createdAt and expiresAt are timestamps, gameState is
left out (none of the room-level claims touch it). -/
structure GameRoom where
  gameCode : String
  sessionId : String
  players : List Player
  status : RoomStatus
  createdAt : Nat
  expiresAt : Nat
deriving DecidableEq, Repr

/-- Player info for creating or joining games. -/
structure PlayerInfo where
  displayName : String
  avatarId : String
deriving DecidableEq, Repr

/-- Platform constant MAX_PLAYERS. -/
def MAX_PLAYERS : Nat := 4

/-- Errors thrown by joinRoom, in the order the source checks them. -/
inductive JoinError where
  | roomNotFound
  | gameInProgress
  | roomFull
deriving DecidableEq, Repr

/-- The player object joinRoom constructs: never host, not yet connected. -/
def joiningPlayer (info : PlayerInfo) (newId : String) (now : Nat) : Player :=
  { id := newId
    displayName := info.displayName
    avatarId := info.avatarId
    isHost := false
    socketId := none
    connected := false
    lastActivity := now }

/-- The service rooms map, keyed by game code. -/
abbrev RoomsMap := List (String × GameRoom)

/-- Add a player to a room: not-found, not-waiting and full checks in source
order, then push the new player at the end of the list. newId is the uuidv4()
value and now the Date.now() value. Returns the updated room. -/
def joinRoom (rooms : RoomsMap) (gameCode : String) (info : PlayerInfo)
    (newId : String) (now : Nat) : Except JoinError GameRoom :=
  match recFind rooms gameCode with
  | none => Except.error JoinError.roomNotFound
  | some room =>
    if room.status ≠ RoomStatus.waiting then Except.error JoinError.gameInProgress
    else if MAX_PLAYERS ≤ room.players.length then Except.error JoinError.roomFull
    else Except.ok { room with players := room.players ++ [joiningPlayer info newId now] }

/-- The host player created by createRoom. -/
def hostPlayer (info : PlayerInfo) (newId : String) (now : Nat) : Player :=
  { id := newId
    displayName := info.displayName
    avatarId := info.avatarId
    isHost := true
    socketId := none
    connected := false
    lastActivity := now }

/-- Create a new game room with the host player (createRoom): the room starts
waiting with the single host in it. -/
def createRoom (hostInfo : PlayerInfo) (gameCode sessionId newId : String) (now : Nat) :
    GameRoom :=
  { gameCode := gameCode
    sessionId := sessionId
    players := [hostPlayer hostInfo newId now]
    status := RoomStatus.waiting
    createdAt := now
    expiresAt := now + 5 * 60 * 1000 }

/-- Remove a player from a room (removePlayer): drop the player at the found
index; an emptied room is deleted (none); if the removed player was host the
player now at index 0 becomes host. Returns none when the player is missing
too, paired with whether a removal happened in the source's boolean. -/
def removePlayer (room : GameRoom) (playerId : String) : Option GameRoom :=
  match room.players.findIdx? (fun p => p.id = playerId) with
  | none => some room
  | some i =>
    let wasHost := ((room.players.get? i).map (fun p => p.isHost)).getD false
    let players' := room.players.eraseIdx i
    if players'.length = 0 then none
    else if wasHost then
      some { room with players :=
        match players' with
        | [] => []
        | h :: t => { h with isHost := true } :: t }
    else some { room with players := players' }

/-- Mark a player as disconnected (markPlayerDisconnected). -/
def markPlayerDisconnected (room : GameRoom) (playerId : String) : GameRoom :=
  { room with players := room.players.map (fun p =>
      if p.id = playerId then { p with connected := false, socketId := none } else p) }

/-- The Epic 7 waiting-room host-transfer block that runs in handleDisconnect
after the buffer timeout has marked the player disconnected: when the
disconnecting player was host, the room is still waiting and has more than one
player, the first other connected player gets isHost set to true. The source
does not clear the old host's flag. -/
def transferHostIfWaiting (room : GameRoom) (playerId : String) (wasHost : Bool) : GameRoom :=
  if wasHost ∧ room.status = RoomStatus.waiting ∧ 1 < room.players.length then
    match room.players.find? (fun p => p.id ≠ playerId ∧ p.connected) with
    | some nextHost =>
      { room with players := room.players.map (fun p =>
          if p.id = nextHost.id then { p with isHost := true } else p) }
    | none => room
  else room

/-- The waiting-room disconnect path of handleDisconnect for a host: capture
isHost from the live room, mark the player disconnected, then run the
host-transfer block. -/
def disconnectWaitingPath (room : GameRoom) (playerId : String) : GameRoom :=
  let wasHost := ((room.players.find? (fun p => p.id = playerId)).map
    (fun p => p.isHost)).getD false
  transferHostIfWaiting (markPlayerDisconnected room playerId) playerId wasHost

/-- Number of players in the room with the host flag set. -/
def hostCount (room : GameRoom) : Nat :=
  (room.players.filter (fun p => p.isHost)).length

-- =============================================================================
-- Derived notions used in statements
-- =============================================================================

/-- Iterated application of extendSequence, threading the mutable seed: the
pair carries the current sequence and the current seed. -/
def iterExtend : Nat → List Color × Nat → List Color × Nat
  | 0, p => p
  | n + 1, p => iterExtend n (extendSequence p.2 p.1)

/-- Object.values of the submissions map filtered to the correct ones, the
list processRoundSubmissions picks its winner from. -/
def correctSubmissionsOf (gs : SimonGameState) : List PlayerSubmission :=
  (gs.submissions.map Prod.snd).filter (fun s => s.isCorrect)

/-- Modelled from the words of claim C3, for comparison with the code: the
client-reported finishTime when it is present, otherwise the server-receive
timestamp. The code instead falls back to the timestamp whenever finishTime
is absent OR zero (JavaScript truthiness of the expression a.finishTime ||
a.timestamp). -/
def claimedFinishKey (s : PlayerSubmission) : Nat :=
  match s.finishTime with
  | some t => t
  | none => s.timestamp

-- =============================================================================
-- Concrete fixtures used by counterexamples and witnesses
-- =============================================================================

/-- A fresh player state with the given id and status. -/
def psOf (id : String) (s : SimonPlayerStatus) : SimonPlayerState :=
  { playerId := id, status := s, currentInputIndex := 0, eliminatedAtRound := none }

/-- A round-1 game state with no players, no scores and no submissions. -/
def emptyBaseState : SimonGameState :=
  { gameType := "simon", phase := SimonPhase.player_input, sequence := [Color.red],
    round := 1, playerStates := [], currentShowingIndex := 0, timeoutMs := TIMEOUT_MS,
    timeoutAt := none, timerStartedAt := none, scores := [], submissions := [],
    roundWinner := none, winnerId := none }

/-- Solo game, lone player still playing, round 1. -/
def soloPlayingState : SimonGameState :=
  { emptyBaseState with playerStates := [("p1", psOf "p1" SimonPlayerStatus.playing)] }

/-- A state where the playing player p1 has no submission but the eliminated
player p2 has one, so the submission COUNT matches the active count. -/
def countMismatchState : SimonGameState :=
  { emptyBaseState with
    playerStates := [("p1", psOf "p1" SimonPlayerStatus.playing),
                     ("p2", psOf "p2" SimonPlayerStatus.eliminated)],
    submissions := [("p2", { playerId := "p2", sequence := [], timestamp := 5,
                             finishTime := none, isCorrect := false })] }

/-- Correct submission whose client finishTime is present but zero. -/
def subFinishZero : PlayerSubmission :=
  { playerId := "a", sequence := [Color.red], timestamp := 100,
    finishTime := some 0, isCorrect := true }

/-- Correct submission with finishTime 50 and an earlier server timestamp. -/
def subFinishFifty : PlayerSubmission :=
  { playerId := "b", sequence := [Color.red], timestamp := 10,
    finishTime := some 50, isCorrect := true }

/-- Two correct submissions where the claimed key (finishTime when present)
picks a but the code's truthiness fallback picks b. -/
def zeroFinishState : SimonGameState :=
  { emptyBaseState with
    playerStates := [("a", psOf "a" SimonPlayerStatus.playing),
                     ("b", psOf "b" SimonPlayerStatus.playing)],
    scores := [("a", 0), ("b", 0)],
    submissions := [("a", subFinishZero), ("b", subFinishFifty)] }

/-- A playing player whose recorded submission is the timeout sentinel written
by handleSimonTimeout: empty sequence, isCorrect false. -/
def timeoutSentinelState : SimonGameState :=
  { emptyBaseState with
    playerStates := [("b", psOf "b" SimonPlayerStatus.playing)],
    scores := [("b", 0)],
    submissions := [("b", { playerId := "b", sequence := [], timestamp := 7,
                            finishTime := none, isCorrect := false })] }

/-- A state carrying an already-eliminated player, for the C8 witness. -/
def elimCarryState : SimonGameState :=
  { emptyBaseState with
    playerStates := [("e", psOf "e" SimonPlayerStatus.eliminated)] }

/-- A state whose input-phase timer fields are still set, as they are right
after the input window of a round closed. -/
def carryTimerState : SimonGameState :=
  { emptyBaseState with timeoutAt := some 1, timerStartedAt := some 2 }

/-- Host of the two-player waiting room fixture. -/
def annHost : Player :=
  { id := "p1", displayName := "Ann", avatarId := "1", isHost := true,
    socketId := some "s1", connected := true, lastActivity := 0 }

/-- Non-host guest of the two-player waiting room fixture. -/
def bobGuest : Player :=
  { id := "p2", displayName := "Bob", avatarId := "2", isHost := false,
    socketId := some "s2", connected := true, lastActivity := 0 }

/-- A waiting room with a connected host and one connected guest. -/
def duoWaitingRoom : GameRoom :=
  { gameCode := "ABCDEF", sessionId := "sess", players := [annHost, bobGuest],
    status := RoomStatus.waiting, createdAt := 0, expiresAt := 300000 }

/-- Joining player info fixture. -/
def cyInfo : PlayerInfo := { displayName := "Cy", avatarId := "3" }

/-- One-room map fixture for joinRoom. -/
def roomsFixture : RoomsMap := [("QWERTZ", duoWaitingRoom)]

-- =============================================================================
-- Helper lemmas
-- =============================================================================

theorem recFind_append {α : Type u} (l₁ l₂ : List (String × α)) (q : String) :
    recFind (l₁ ++ l₂) q =
      match recFind l₁ q with
      | some v => some v
      | none => recFind l₂ q := by
  induction l₁ with
  | nil => simp [recFind]
  | cons p rest ih =>
    obtain ⟨k', v⟩ := p
    by_cases h : k' = q <;> simp [recFind, h, ih]

theorem recFind_map_set {α : Type u} (l : List (String × α)) (k : String) (v : α) :
    recFind (l.map (fun p => if p.1 = k then (k, v) else p)) k =
      if recHas l k then some v else none := by
  induction l with
  | nil => simp [recFind, recHas]
  | cons p rest ih =>
    obtain ⟨k', v'⟩ := p
    simp only [List.map_cons]
    by_cases h : k' = k
    · rw [if_pos h]
      simp [recFind, recHas, h]
    · rw [if_neg h]
      simp [recFind, recHas, h, ih]

theorem recFind_map_set_ne {α : Type u} (l : List (String × α)) (k q : String) (v : α)
    (hne : k ≠ q) :
    recFind (l.map (fun p => if p.1 = k then (k, v) else p)) q = recFind l q := by
  induction l with
  | nil => simp [recFind]
  | cons p rest ih =>
    obtain ⟨k', v'⟩ := p
    simp only [List.map_cons]
    by_cases h : k' = k
    · rw [if_pos h]
      subst h
      simp [recFind, hne, ih]
    · rw [if_neg h]
      by_cases h2 : k' = q <;> simp [recFind, h2, ih]

theorem recHas_false_recFind {α : Type u} (l : List (String × α)) (k : String)
    (h : recHas l k = false) : recFind l k = none := by
  induction l with
  | nil => simp [recFind]
  | cons p rest ih =>
    obtain ⟨k', v'⟩ := p
    by_cases hk : k' = k
    · simp [recHas, hk] at h
    · simp [recFind, recHas, hk] at h ⊢
      exact ih h

theorem recFind_recSet_self {α : Type u} (l : List (String × α)) (k : String) (v : α) :
    recFind (recSet l k v) k = some v := by
  unfold recSet
  by_cases h : recHas l k = true
  · simp [h, recFind_map_set]
  · simp only [Bool.not_eq_true] at h
    simp [h, recFind_append, recHas_false_recFind l k h, recFind]

theorem recFind_recSet_ne {α : Type u} (l : List (String × α)) (k q : String) (v : α)
    (hne : k ≠ q) : recFind (recSet l k v) q = recFind l q := by
  unfold recSet
  by_cases h : recHas l k
  · simp [h, recFind_map_set_ne l k q v hne]
  · simp only [Bool.not_eq_true] at h
    simp only [h, Bool.false_eq_true, if_false, recFind_append]
    cases hfl : recFind l q with
    | some w => rfl
    | none =>
      simp only [recFind]
      rw [if_neg hne]


theorem fastestOf_eq_none (l : List PlayerSubmission) : fastestOf l = none ↔ l = [] := by
  cases l with
  | nil => simp [fastestOf]
  | cons s rest =>
    simp only [fastestOf]
    cases fastestOf rest with
    | none => simp
    | some b => by_cases hle : subKey s ≤ subKey b <;> simp [hle]

theorem fastestOf_spec (l : List PlayerSubmission) (w : PlayerSubmission)
    (h : fastestOf l = some w) :
    ∃ l₁ l₂, l = l₁ ++ w :: l₂ ∧ (∀ s ∈ l₁, subKey w < subKey s) ∧
      ∀ s ∈ l, subKey w ≤ subKey s := by
  induction l generalizing w with
  | nil => simp [fastestOf] at h
  | cons s rest ih =>
    rw [fastestOf] at h
    split at h
    · rename_i hr
      injection h with h
      subst h
      have hrest : rest = [] := (fastestOf_eq_none rest).1 hr
      subst hrest
      exact ⟨[], [], rfl, by simp, by simp⟩
    · rename_i b hr
      obtain ⟨l₁, l₂, hsplit, hstrict, hmin⟩ := ih b hr
      split at h
      · rename_i hle
        injection h with h
        subst h
        refine ⟨[], rest, rfl, by simp, ?_⟩
        intro x hx
        rcases List.mem_cons.1 hx with hx | hx
        · subst hx; exact le_refl _
        · exact le_trans hle (hmin x hx)
      · rename_i hle
        injection h with h
        subst h
        push_neg at hle
        refine ⟨s :: l₁, l₂, by rw [hsplit]; simp, ?_, ?_⟩
        · intro x hx
          rcases List.mem_cons.1 hx with hx | hx
          · subst hx; exact hle
          · exact hstrict x hx
        · intro x hx
          rcases List.mem_cons.1 hx with hx | hx
          · subst hx; exact le_of_lt hle
          · exact hmin x hx

theorem eliminateWrong_keeps_eliminated (round : Nat) (subs : List PlayerSubmission) :
    ∀ (states : List (String × SimonPlayerState)) (pid : String) (st : SimonPlayerState),
      recFind states pid = some st → st.status = SimonPlayerStatus.eliminated →
      ∃ st', recFind (eliminateWrong round subs states).1 pid = some st' ∧
        st'.status = SimonPlayerStatus.eliminated := by
  induction subs with
  | nil =>
    intro states pid st h hst
    exact ⟨st, h, hst⟩
  | cons sub rest ih =>
    intro states pid st h hst
    rw [eliminateWrong]
    split
    · exact ih states pid st h hst
    · split
      · rename_i st₀ hfind
        split
        · rename_i hp
          by_cases hpid : sub.playerId = pid
          · exfalso
            rw [hpid, h] at hfind
            injection hfind with he
            rw [← he] at hp
            rw [hst] at hp
            exact SimonPlayerStatus.noConfusion hp
          · have h' : recFind (recSet states sub.playerId
                { st₀ with status := SimonPlayerStatus.eliminated, eliminatedAtRound := some round }) pid = some st := by
              rw [recFind_recSet_ne states sub.playerId pid _ hpid]
              exact h
            obtain ⟨st', h1, h2⟩ := ih _ pid st h' hst
            exact ⟨st', h1, h2⟩
        · exact ih states pid st h hst
      · exact ih states pid st h hst

theorem processRoundSubmissions_winner_eq (gs : SimonGameState) :
    (processRoundSubmissions gs).2.1 =
      (fastestOf (correctSubmissionsOf gs)).map (fun w =>
        (w.playerId, (recFind gs.scores w.playerId).getD 0 + 1)) := rfl

theorem processRoundSubmissions_states_eq (gs : SimonGameState) :
    (processRoundSubmissions gs).1.playerStates =
      (eliminateWrong gs.round (gs.submissions.map Prod.snd) gs.playerStates).1 := rfl

theorem processRoundSubmissions_elims_eq (gs : SimonGameState) :
    (processRoundSubmissions gs).2.2 =
      (eliminateWrong gs.round (gs.submissions.map Prod.snd) gs.playerStates).2 := rfl

theorem processRoundSubmissions_scores_eq (gs : SimonGameState) :
    (processRoundSubmissions gs).1.scores =
      match fastestOf (correctSubmissionsOf gs) with
      | none => gs.scores
      | some w => recSet gs.scores w.playerId ((recFind gs.scores w.playerId).getD 0 + 1) := by
  show (match (fastestOf (correctSubmissionsOf gs)).map (fun w =>
      (w.playerId, (recFind gs.scores w.playerId).getD 0 + 1)) with
    | none => gs.scores
    | some pn => recSet gs.scores pn.1 pn.2) = _
  cases fastestOf (correctSubmissionsOf gs) <;> rfl

-- =============================================================================
-- Claim theorems
-- =============================================================================

/-- C1 counterexample: at the concrete state with an empty player map and
round 1, shouldGameEnd returns true although none of the three conditions the
claim enumerates (round at least 5; two or more total players with at most one
playing; exactly one total player who is not playing) holds, so the claimed
equivalence is false at this input. -/
theorem C1_counterexample :
    ¬ (shouldGameEnd emptyBaseState = true ↔
        (5 ≤ emptyBaseState.round ∨
         (2 ≤ emptyBaseState.playerStates.length ∧
          (activePlayerStates emptyBaseState).length ≤ 1) ∨
         (emptyBaseState.playerStates.length = 1 ∧
          (activePlayerStates emptyBaseState).length = 0))) := by
  decide

/-- C1 (amended): shouldGameEnd(state) returns true if and only if
state.round is at least 5, or the total player count is different from one and
at most one player has status playing, or there is exactly one total player
and that player is not playing; in particular, for a state with exactly one
total player who is still playing at any round below 5, it returns false. -/
theorem C1_shouldGameEnd_characterization (gs : SimonGameState) :
    (shouldGameEnd gs = true ↔
      (5 ≤ gs.round ∨
       (gs.playerStates.length ≠ 1 ∧ (activePlayerStates gs).length ≤ 1) ∨
       (gs.playerStates.length = 1 ∧ (activePlayerStates gs).length = 0))) ∧
    (gs.playerStates.length = 1 → (activePlayerStates gs).length = 1 → gs.round < 5 →
      shouldGameEnd gs = false) := by
  have hmc : MAX_CYCLES = 5 := rfl
  constructor
  · simp only [shouldGameEnd, hmc]
    by_cases h5 : 5 ≤ gs.round
    · simp [h5]
    · by_cases h1 : gs.playerStates.length = 1 <;> simp [h5, h1]
  · intro h1 hact h5
    simp only [shouldGameEnd, hmc]
    rw [if_neg (by omega), if_pos h1]
    simp [hact]

/-- C1 witness: the solo state with its lone player still playing at round 1
is not terminal. -/
theorem C1_witness : shouldGameEnd soloPlayingState = false :=
  (C1_shouldGameEnd_characterization soloPlayingState).2 (by decide) (by decide) (by decide)

/-- C2 counterexample: in the concrete state where the playing player p1 has
no entry in the submissions map while the eliminated player p2 has one,
haveAllPlayersSubmitted returns true, so it is not false whenever some playing
player lacks a submission entry, contrary to the claim. -/
theorem C2_counterexample :
    haveAllPlayersSubmitted countMismatchState = true ∧
    (recFind countMismatchState.playerStates "p1").map (fun st => st.status) =
      some SimonPlayerStatus.playing ∧
    recFind countMismatchState.submissions "p1" = none := by
  decide

/-- C2 (amended): haveAllPlayersSubmitted(state) returns true if and only if
at least one player has status playing and the number of entries in the
submissions map is at least the number of players with status playing,
regardless of which players those entries belong to; in particular it returns
false whenever zero players have status playing. -/
theorem C2_haveAllPlayersSubmitted_characterization (gs : SimonGameState) :
    haveAllPlayersSubmitted gs = true ↔
      (0 < (activePlayerStates gs).length ∧
       (activePlayerStates gs).length ≤ gs.submissions.length) := by
  simp [haveAllPlayersSubmitted]

/-- C3 counterexample: both submissions are correct and the key described by
the claim (finishTime when present, else timestamp) is uniquely minimized by
the submission of player a (key 0 against key 50), yet the code awards the
round to player b with score 1 and leaves the score of a at 0, because the
JavaScript expression finishTime || timestamp falls back to the timestamp for
the present-but-zero finishTime. -/
theorem C3_counterexample :
    subFinishZero.finishTime = some 0 ∧
    subFinishFifty.finishTime = some 50 ∧
    claimedFinishKey subFinishZero < claimedFinishKey subFinishFifty ∧
    correctSubmissionsOf zeroFinishState = [subFinishZero, subFinishFifty] ∧
    (processRoundSubmissions zeroFinishState).2.1 = some ("b", 1) ∧
    recFind (processRoundSubmissions zeroFinishState).1.scores "a" = some 0 ∧
    recFind (processRoundSubmissions zeroFinishState).1.scores "b" = some 1 := by
  decide

/-- C3 (amended): when at least one correct submission exists,
processRoundSubmissions awards exactly +1 to the first-listed correct
submission minimizing the key, where the key is the client-reported finishTime
when it is present and nonzero and otherwise the server-receive timestamp;
every other player's score is unchanged and that player's id with the
incremented score is returned as the round winner; with no correct submission
the round winner is none and the scores are unchanged. -/
theorem C3_processRoundSubmissions_winner (gs : SimonGameState) :
    (correctSubmissionsOf gs = [] →
      (processRoundSubmissions gs).2.1 = none ∧
      (processRoundSubmissions gs).1.scores = gs.scores) ∧
    (correctSubmissionsOf gs ≠ [] →
      ∃ w l₁ l₂,
        correctSubmissionsOf gs = l₁ ++ w :: l₂ ∧
        (∀ s ∈ l₁, subKey w < subKey s) ∧
        (∀ s ∈ correctSubmissionsOf gs, subKey w ≤ subKey s) ∧
        (processRoundSubmissions gs).2.1 =
          some (w.playerId, (recFind gs.scores w.playerId).getD 0 + 1) ∧
        recFind (processRoundSubmissions gs).1.scores w.playerId =
          some ((recFind gs.scores w.playerId).getD 0 + 1) ∧
        (∀ q, q ≠ w.playerId →
          recFind (processRoundSubmissions gs).1.scores q = recFind gs.scores q)) := by
  constructor
  · intro hnil
    have hf : fastestOf (correctSubmissionsOf gs) = none := by rw [hnil]; rfl
    constructor
    · rw [processRoundSubmissions_winner_eq, hf]
      rfl
    · rw [processRoundSubmissions_scores_eq, hf]
  · intro hne
    cases hf : fastestOf (correctSubmissionsOf gs) with
    | none => exact absurd ((fastestOf_eq_none _).1 hf) hne
    | some w =>
      obtain ⟨l₁, l₂, hsplit, hstrict, hmin⟩ := fastestOf_spec _ w hf
      refine ⟨w, l₁, l₂, hsplit, hstrict, hmin, ?_, ?_, ?_⟩
      · rw [processRoundSubmissions_winner_eq, hf]
        rfl
      · rw [processRoundSubmissions_scores_eq, hf]
        exact recFind_recSet_self _ _ _
      · intro q hq
        rw [processRoundSubmissions_scores_eq, hf]
        exact recFind_recSet_ne _ _ _ _ (Ne.symm hq)

/-- C3 witness: the amended statement instantiated at the two-correct-
submission fixture. -/
theorem C3_witness :
    ∃ w l₁ l₂,
      correctSubmissionsOf zeroFinishState = l₁ ++ w :: l₂ ∧
      (∀ s ∈ l₁, subKey w < subKey s) ∧
      (∀ s ∈ correctSubmissionsOf zeroFinishState, subKey w ≤ subKey s) ∧
      (processRoundSubmissions zeroFinishState).2.1 =
        some (w.playerId, (recFind zeroFinishState.scores w.playerId).getD 0 + 1) ∧
      recFind (processRoundSubmissions zeroFinishState).1.scores w.playerId =
        some ((recFind zeroFinishState.scores w.playerId).getD 0 + 1) ∧
      (∀ q, q ≠ w.playerId →
        recFind (processRoundSubmissions zeroFinishState).1.scores q =
          recFind zeroFinishState.scores q) :=
  (C3_processRoundSubmissions_winner zeroFinishState).2 (by decide)

/-- C4: evaluation of the code at the failing input. The two-player waiting
room starts with exactly one host; after the disconnect-driven host-transfer
path runs for the disconnecting host p1 (mark disconnected, then give the
first other connected player the host flag), BOTH p1 and p2 carry
isHost = true, so the room does not have exactly one host, contrary to the
claimed invariant; the code never clears the old host's flag. -/
theorem C4_two_hosts_after_transfer :
    hostCount duoWaitingRoom = 1 ∧
    duoWaitingRoom.status = RoomStatus.waiting ∧
    hostCount (disconnectWaitingPath duoWaitingRoom "p1") = 2 ∧
    (disconnectWaitingPath duoWaitingRoom "p1").players.map (fun p => (p.id, p.isHost)) =
      [("p1", true), ("p2", true)] := by
  decide

/-- C5: evaluation of the code at the failing input. The still-playing player
b carries the timeout sentinel submission recorded by handleSimonTimeout (an
incorrect submission with an empty color list), yet the eliminations list
returned by processRoundSubmissions reports reason wrong_sequence for b, not
timeout as the claim (and the spec's timeout example) requires: the
elimination loop hardcodes wrong_sequence for every incorrect submission. -/
theorem C5_timeout_reason_eval :
    (recFind timeoutSentinelState.submissions "b").map (fun s => (s.sequence, s.isCorrect)) =
      some ([], false) ∧
    (recFind timeoutSentinelState.playerStates "b").map (fun st => st.status) =
      some SimonPlayerStatus.playing ∧
    (processRoundSubmissions timeoutSentinelState).2.2 =
      [("b", ElimReason.wrong_sequence)] := by
  decide

/-- C6 counterexample: advanceToNextRound applied to the concrete state whose
timer fields are still set returns a showing_sequence state in which timeoutAt
and timerStartedAt are NOT null, contradicting the claim that they are null in
every advanceToNextRound result and in every non-input phase. -/
theorem C6_counterexample :
    (advanceToNextRound 0 carryTimerState).1.phase = SimonPhase.showing_sequence ∧
    (advanceToNextRound 0 carryTimerState).1.timeoutAt = some 1 ∧
    (advanceToNextRound 0 carryTimerState).1.timerStartedAt = some 2 := by
  decide

/-- C6 (amended): initializeSimonGame returns a showing_sequence state with
timeoutAt and timerStartedAt both null; advanceToNextRound applied to any
state returns a showing_sequence state whose timeoutAt and timerStartedAt are
unchanged from the input state (the function does not reset them). -/
theorem C6_timer_fields :
    (∀ (players : List Player) (now : Nat),
      (initializeSimonGame players now).1.phase = SimonPhase.showing_sequence ∧
      (initializeSimonGame players now).1.timeoutAt = none ∧
      (initializeSimonGame players now).1.timerStartedAt = none) ∧
    (∀ (seed : Nat) (gs : SimonGameState),
      (advanceToNextRound seed gs).1.phase = SimonPhase.showing_sequence ∧
      (advanceToNextRound seed gs).1.timeoutAt = gs.timeoutAt ∧
      (advanceToNextRound seed gs).1.timerStartedAt = gs.timerStartedAt) :=
  ⟨fun _ _ => ⟨rfl, rfl, rfl⟩, fun _ _ => ⟨rfl, rfl, rfl⟩⟩

/-- Every k-fold iterate of extendSequence extends the starting sequence, for
every seed; the auxiliary induction behind C7. -/
theorem iterExtend_mono : ∀ (k : Nat) (s : List Color) (seed : Nat),
    s <+: (iterExtend k (s, seed)).1 := by
  intro k
  induction k with
  | zero => intro s seed; exact ⟨[], List.append_nil s⟩
  | succ n ih =>
    intro s seed
    have h1 : s <+: (extendSequence seed s).1 := ⟨[randColor (lcgNext seed)], rfl⟩
    have h2 := ih (extendSequence seed s).1 (extendSequence seed s).2
    exact h1.trans h2

/-- C7: for every seed and color sequence s, extendSequence produces a
sequence of length s.length + 1 whose first s.length elements are exactly s,
and hence every k-fold iterate of extendSequence (threading the seed, as the
mutable generator stream does) has s as an initial segment. -/
theorem C7_extendSequence_spec (seed : Nat) (s : List Color) :
    (extendSequence seed s).1.length = s.length + 1 ∧
    (extendSequence seed s).1.take s.length = s ∧
    ∀ k : Nat, s <+: (iterExtend k (s, seed)).1 := by
  refine ⟨?_, ?_, fun k => iterExtend_mono k s seed⟩
  · simp [extendSequence]
  · simp [extendSequence]

/-- C8: in the state returned by processRoundSubmissions, when no winner is
reported the scores are unchanged; when a winner (p, n) is reported, p's score
becomes n which is its input value (default 0) plus one and every other
player's score is unchanged — so at most one score changes, and then by
exactly +1; and every player eliminated in the input is still eliminated in
the output. -/
theorem C8_processRoundSubmissions_frame (gs : SimonGameState) :
    ((processRoundSubmissions gs).2.1 = none →
      (processRoundSubmissions gs).1.scores = gs.scores) ∧
    (∀ p n, (processRoundSubmissions gs).2.1 = some (p, n) →
      n = (recFind gs.scores p).getD 0 + 1 ∧
      recFind (processRoundSubmissions gs).1.scores p = some n ∧
      ∀ q, q ≠ p → recFind (processRoundSubmissions gs).1.scores q = recFind gs.scores q) ∧
    (∀ pid st, recFind gs.playerStates pid = some st →
      st.status = SimonPlayerStatus.eliminated →
      ∃ st', recFind (processRoundSubmissions gs).1.playerStates pid = some st' ∧
        st'.status = SimonPlayerStatus.eliminated) := by
  refine ⟨?_, ?_, ?_⟩
  · intro h
    rw [processRoundSubmissions_winner_eq] at h
    rw [processRoundSubmissions_scores_eq]
    cases hf : fastestOf (correctSubmissionsOf gs) with
    | none => rfl
    | some w =>
      rw [hf] at h
      simp at h
  · intro p n h
    rw [processRoundSubmissions_winner_eq] at h
    cases hf : fastestOf (correctSubmissionsOf gs) with
    | none =>
      rw [hf] at h
      simp at h
    | some w =>
      rw [hf] at h
      simp only [Option.map_some'] at h
      injection h with h
      have hp : w.playerId = p := congrArg Prod.fst h
      have hn : (recFind gs.scores w.playerId).getD 0 + 1 = n := congrArg Prod.snd h
      subst hp
      refine ⟨hn.symm, ?_, ?_⟩
      · rw [processRoundSubmissions_scores_eq, hf, ← hn]
        exact recFind_recSet_self _ _ _
      · intro q hq
        rw [processRoundSubmissions_scores_eq, hf]
        exact recFind_recSet_ne _ _ _ _ (Ne.symm hq)
  · intro pid st h hst
    rw [processRoundSubmissions_states_eq]
    exact eliminateWrong_keeps_eliminated gs.round _ gs.playerStates pid st h hst

/-- C8 witness: the eliminated player e of the fixture is still eliminated
after round processing. -/
theorem C8_witness :
    ∃ st', recFind (processRoundSubmissions elimCarryState).1.playerStates "e" = some st' ∧
      st'.status = SimonPlayerStatus.eliminated :=
  (C8_processRoundSubmissions_frame elimCarryState).2.2 "e"
    (psOf "e" SimonPlayerStatus.eliminated) (by decide) (by decide)

/-- C9: joinRoom fails with room-not-found exactly when the code maps to no
room; given the room, it fails with game-in-progress exactly when the status
is not waiting, fails with room-full exactly when the status is waiting and
the room already has MAX_PLAYERS (4) players, and otherwise succeeds returning
the room with exactly one new player appended at the end of the player list,
all previously present players unchanged; the appended player has
isHost = false and connected = false. -/
theorem C9_joinRoom_spec (rooms : RoomsMap) (gameCode : String) (info : PlayerInfo)
    (newId : String) (now : Nat) :
    (joinRoom rooms gameCode info newId now = Except.error JoinError.roomNotFound ↔
      recFind rooms gameCode = none) ∧
    (∀ room, recFind rooms gameCode = some room →
      ((joinRoom rooms gameCode info newId now = Except.error JoinError.gameInProgress ↔
        room.status ≠ RoomStatus.waiting) ∧
       (joinRoom rooms gameCode info newId now = Except.error JoinError.roomFull ↔
        (room.status = RoomStatus.waiting ∧ MAX_PLAYERS ≤ room.players.length)) ∧
       (room.status = RoomStatus.waiting → room.players.length < MAX_PLAYERS →
        joinRoom rooms gameCode info newId now =
          Except.ok { room with players := room.players ++ [joiningPlayer info newId now] }))) ∧
    (joiningPlayer info newId now).isHost = false ∧
    (joiningPlayer info newId now).connected = false := by
  refine ⟨?_, ?_, rfl, rfl⟩
  · cases hr : recFind rooms gameCode with
    | none =>
      have hj : joinRoom rooms gameCode info newId now =
          Except.error JoinError.roomNotFound := by
        unfold joinRoom
        rw [hr]
      simp [hj]
    | some room =>
      have hj : joinRoom rooms gameCode info newId now =
          (if room.status ≠ RoomStatus.waiting then Except.error JoinError.gameInProgress
           else if MAX_PLAYERS ≤ room.players.length then Except.error JoinError.roomFull
           else Except.ok
             { room with players := room.players ++ [joiningPlayer info newId now] }) := by
        unfold joinRoom
        rw [hr]
      rw [hj]
      constructor
      · intro h
        exfalso
        by_cases h1 : room.status ≠ RoomStatus.waiting
        · rw [if_pos h1] at h
          exact JoinError.noConfusion (Except.error.inj h)
        · rw [if_neg h1] at h
          by_cases h2 : MAX_PLAYERS ≤ room.players.length
          · rw [if_pos h2] at h
            exact JoinError.noConfusion (Except.error.inj h)
          · rw [if_neg h2] at h
            exact Except.noConfusion h
      · intro h
        exact Option.noConfusion h
  · intro room hroom
    have hj : joinRoom rooms gameCode info newId now =
        (if room.status ≠ RoomStatus.waiting then Except.error JoinError.gameInProgress
         else if MAX_PLAYERS ≤ room.players.length then Except.error JoinError.roomFull
         else Except.ok
           { room with players := room.players ++ [joiningPlayer info newId now] }) := by
      unfold joinRoom
      rw [hroom]
    rw [hj]
    by_cases h1 : room.status = RoomStatus.waiting
    · by_cases h2 : MAX_PLAYERS ≤ room.players.length
      · rw [if_neg (by simp [h1]), if_pos h2]
        refine ⟨?_, ?_, ?_⟩
        · simp [h1]
        · simp [h1, h2]
        · intro _ hlt
          exact absurd h2 (by omega)
      · rw [if_neg (by simp [h1]), if_neg h2]
        refine ⟨?_, ?_, ?_⟩
        · simp [h1]
        · simp [h2]
        · intro _ _
          rfl
    · rw [if_pos h1]
      refine ⟨?_, ?_, ?_⟩
      · simp [h1]
      · simp [h1]
      · intro hw _
        exact absurd hw h1

/-- C9 witness: joining the two-player waiting room fixture succeeds and
appends exactly the new non-host, non-connected player. -/
theorem C9_witness :
    joinRoom roomsFixture "QWERTZ" cyInfo "p3" 9 =
      Except.ok { duoWaitingRoom with
        players := duoWaitingRoom.players ++ [joiningPlayer cyInfo "p3" 9] } :=
  (((C9_joinRoom_spec roomsFixture "QWERTZ" cyInfo "p3" 9).2.1) duoWaitingRoom
    (by decide)).2.2 (by decide) (by decide)

/-- C10: the state returned by processRoundSubmissions keeps gameType, phase,
sequence, round, currentShowingIndex, timeoutMs, timeoutAt, timerStartedAt and
winnerId of the input state, and its submissions map is empty. -/
theorem C10_processRoundSubmissions_unchanged_fields (gs : SimonGameState) :
    (processRoundSubmissions gs).1.gameType = gs.gameType ∧
    (processRoundSubmissions gs).1.phase = gs.phase ∧
    (processRoundSubmissions gs).1.sequence = gs.sequence ∧
    (processRoundSubmissions gs).1.round = gs.round ∧
    (processRoundSubmissions gs).1.currentShowingIndex = gs.currentShowingIndex ∧
    (processRoundSubmissions gs).1.timeoutMs = gs.timeoutMs ∧
    (processRoundSubmissions gs).1.timeoutAt = gs.timeoutAt ∧
    (processRoundSubmissions gs).1.timerStartedAt = gs.timerStartedAt ∧
    (processRoundSubmissions gs).1.winnerId = gs.winnerId ∧
    (processRoundSubmissions gs).1.submissions = [] :=
  ⟨rfl, rfl, rfl, rfl, rfl, rfl, rfl, rfl, rfl, rfl⟩

end Simon
